import Mathlib

/-!
Verification of the scan/search control layer of `src/web_ui.py` (Kalshi
arbitrage bot web UI).

Modelling conventions:
* Python strings are Lean `String`s; `str.lower` and `str.strip` are modelled
  character-wise with `Char.toLower` / `Char.isWhitespace` (ASCII model), and
  the Python substring test `a in b` is `subOf`.
* A market dictionary is an association list of field-name/value pairs; the
  handlers under study only inspect the text fields `title`, `ticker_name`,
  `ticker` and the key list, so values are modelled as strings.
* The collaborators the spec excludes (`KalshiClient.get_markets`,
  `bot.filter_markets_by_liquidity`, `bot.scan_all_opportunities`) are
  parameters: a remote call is an `Except String _` whose `error` case is a
  raised exception, and the liquidity filter is an abstract
  `List Market → List Market`.  A fetch returning Python `None` behaves like
  the empty list in every truthiness test these handlers perform on it.
* The shared mutable thresholds `bot.min_liquidity` / `bot.min_profit_per_day`
  form a `Settings` record.  `api_scan` reads them while assembling its
  response dictionary; a `SettingsTrace` records the value the shared record
  holds when the request starts and the value it holds at response assembly,
  so a concurrent settings update during the request is exactly the case
  where the two components differ.
-/

/-- Lower-case a string character by character, as Python `str.lower` does on
ASCII text. -/
def lowerS (s : String) : String :=
  String.mk (s.data.map Char.toLower)

/-- Strip leading and trailing whitespace, as Python `str.strip`. -/
def stripS (s : String) : String :=
  String.mk (((s.data.dropWhile Char.isWhitespace).reverse.dropWhile
    Char.isWhitespace).reverse)

/-- Boolean test: the first list is a prefix of the second. -/
def startsList : List Char → List Char → Bool
  | [], _ => true
  | _ :: _, [] => false
  | a :: as, b :: bs => a == b && startsList as bs

/-- Boolean test: the second list contains the first as a contiguous run. -/
def hasSubList (needle : List Char) : List Char → Bool
  | [] => startsList needle []
  | c :: rest => startsList needle (c :: rest) || hasSubList needle rest

/-- Python substring test `needle in hay`. -/
def subOf (needle hay : String) : Bool :=
  hasSubList needle.data hay.data

/-- A market record as the handlers see it: a field dictionary.  Only its
text fields and its key list are ever inspected by this layer. -/
abbrev Market := List (String × String)

/-- Python `market.get(key, default)` on a market dictionary. -/
def mget (m : Market) (k : String) (d : String) : String :=
  match List.lookup k m with
  | some v => v
  | none => d

/-- Python `list(market.keys())`. -/
def mkeys (m : Market) : List String :=
  m.map Prod.fst

/-- An opportunity record, held as its serialized field dictionary: the scan
handler serializes `opp.__dict__` verbatim for each opportunity. -/
abbrev Opp := List (String × String)

/-- The two shared mutable thresholds living on the bot object
(`bot.min_liquidity`, `bot.min_profit_per_day`). -/
structure Settings where
  min_liquidity : Int
  min_profit_per_day : Rat
deriving DecidableEq

/-- The request body of `POST /api/settings`: both fields optional. -/
structure SettingsPayload where
  min_liquidity : Option Int
  min_profit_per_day : Option Rat
deriving DecidableEq

/-- `api_settings` (web_ui.py lines 228-238): assigns each field of the
payload that is present onto the bot, then returns the full settings record.
The result is the pair (new shared settings, response body). -/
def api_settings (payload : SettingsPayload) (bot : Settings) :
    Settings × Settings :=
  let bot1 :=
    match payload.min_liquidity with
    | some v => { bot with min_liquidity := v }
    | none => bot
  let bot2 :=
    match payload.min_profit_per_day with
    | some v => { bot1 with min_profit_per_day := v }
    | none => bot1
  (bot2, bot2)

/-- The values the shared settings record holds at the two relevant points
of one scan request: when the request starts, and when the response
dictionary is assembled.  A concurrent settings update mid-request is the
case where the two differ. -/
structure SettingsTrace where
  atStart : Settings
  atAssembly : Settings
deriving DecidableEq

/-- The `debug` sub-dictionary of the scan response (web_ui.py lines
218-224). -/
structure ScanDebug where
  total_markets_fetched : Nat
  markets_after_liquidity_filter : Nat
  min_liquidity : Int
  min_profit_per_day : Rat
  sample_market_fields : List String
deriving DecidableEq

/-- The scan response dictionary (web_ui.py lines 214-225).  The executed
count is serialized under the key named `executed`. -/
structure ScanResponse where
  arbitrage_opportunities : List Opp
  trade_opportunities : List Opp
  executed : Int
  debug : ScanDebug
deriving DecidableEq

/-- The JSON keys of the scan response dictionary literal (web_ui.py lines
214-225), in insertion order. -/
def ScanResponse.jsonKeys (_ : ScanResponse) : List String :=
  ["arbitrage_opportunities", "trade_opportunities", "executed", "debug"]

/-- The successful body of `api_scan` (web_ui.py lines 206-225): the markets
already fetched, the abstract liquidity-filter collaborator, the three
results of `bot.scan_all_opportunities`, and the settings trace.  Mirrors
the code: `filtered_markets = bot.filter_markets_by_liquidity(markets) if
markets else []`, and the debug thresholds read the shared bot fields at
response-assembly time. -/
def scan_response (markets : List Market) (filterFn : List Market → List Market)
    (arbitrage_opps trade_opps : List Opp) (executed_count : Int)
    (trace : SettingsTrace) : ScanResponse :=
  let filtered_markets := if markets.isEmpty then [] else filterFn markets
  { arbitrage_opportunities := arbitrage_opps
    trade_opportunities := trade_opps
    executed := executed_count
    debug :=
      { total_markets_fetched := if markets.isEmpty then 0 else markets.length
        markets_after_liquidity_filter := filtered_markets.length
        min_liquidity := trace.atAssembly.min_liquidity
        min_profit_per_day := trace.atAssembly.min_profit_per_day
        sample_market_fields :=
          match markets with
          | [] => []
          | m :: _ => mkeys m } }

/-- `api_scan` (web_ui.py lines 204-225).  There is no exception handler in
this endpoint: a raising `get_markets` or `scan_all_opportunities`
propagates, which the `Except.error` result records. -/
def api_scan (fetch : Except String (List Market))
    (filterFn : List Market → List Market)
    (engine : Except String (List Opp × List Opp × Int))
    (trace : SettingsTrace) : Except String ScanResponse :=
  match fetch with
  | .error e => .error e
  | .ok markets =>
    match engine with
    | .error e => .error e
    | .ok (arb, tr, ex) => .ok (scan_response markets filterFn arb tr ex trace)

/-- The three response shapes `api_search` can produce (web_ui.py lines
241-272): the error dictionary (both the validation branch and the except
branch), the empty-fetch dictionary, and the success dictionary. -/
inductive SearchResponse where
  | failure (msg : String)
  | noMarkets
  | success (markets : List Market) (count : Nat) (query : String)
deriving DecidableEq

/-- The JSON keys of each search response dictionary literal, in insertion
order: lines 245 and 272 produce the error shape, line 252 the empty shape,
lines 266-270 the success shape. -/
def SearchResponse.jsonKeys : SearchResponse → List String
  | .failure _ => ["error", "markets"]
  | .noMarkets => ["markets", "count"]
  | .success _ _ _ => ["markets", "count", "query"]

/-- The value serialized under the `markets` key of each search response
shape. -/
def SearchResponse.marketsField : SearchResponse → List Market
  | .failure _ => []
  | .noMarkets => []
  | .success ms _ _ => ms

/-- The per-market match test of `api_search` (web_ui.py lines 258-264),
applied to the already lower-cased and stripped query. -/
def matchesQuery (query_lower : String) (market : Market) : Bool :=
  subOf query_lower (lowerS (mget market "title" "")) ||
  subOf query_lower (lowerS (mget market "ticker_name" (mget market "ticker" "")))

/-- `api_search` (web_ui.py lines 241-272): validation guard, fetch inside a
try/except whose except branch returns the error dictionary, early return on
an empty window, and the filter loop `query_lower = query.lower().strip()`
followed by appending each matching market in order. -/
def api_search (query : String) (fetch : Except String (List Market)) :
    SearchResponse :=
  if query.isEmpty || (stripS query).isEmpty then
    .failure "Query parameter is required"
  else
    match fetch with
    | .error e => .failure e
    | .ok all_markets =>
      if all_markets.isEmpty then
        .noMarkets
      else
        .success (all_markets.filter (matchesQuery (stripS (lowerS query))))
          (all_markets.filter (matchesQuery (stripS (lowerS query)))).length
          query

/-- The response shapes of `api_debug_markets` (web_ui.py lines 275-293):
the except branch returns the error dictionary, the normal branch the debug
dictionary. -/
inductive DebugMarketsResponse where
  | failure (msg : String)
  | ok (total_markets_fetched markets_after_liquidity_filter : Nat)
      (min_liquidity_threshold : Int) (min_profit_per_day : Rat)
      (sample_markets sample_filtered : List Market)
deriving DecidableEq

/-- `api_debug_markets` (web_ui.py lines 275-293). -/
def api_debug_markets (fetch : Except String (List Market))
    (filterFn : List Market → List Market) (bot : Settings) :
    DebugMarketsResponse :=
  match fetch with
  | .error e => .failure e
  | .ok markets =>
    let filtered_markets := filterFn markets
    .ok markets.length filtered_markets.length bot.min_liquidity
      bot.min_profit_per_day (markets.take 5) (filtered_markets.take 5)

/-- The scan endpoint as a transformer of the shared settings state: its
body contains no assignment to `bot.min_liquidity` or
`bot.min_profit_per_day`, so the state component is returned unchanged.  In
the absence of a concurrent update the settings trace is constant. -/
def api_scan_handler (fetch : Except String (List Market))
    (filterFn : List Market → List Market)
    (engine : Except String (List Opp × List Opp × Int)) (bot : Settings) :
    Settings × Except String ScanResponse :=
  (bot, api_scan fetch filterFn engine ⟨bot, bot⟩)

/-- The search endpoint as a transformer of the shared settings state: its
body never touches the bot object at all. -/
def api_search_handler (query : String) (fetch : Except String (List Market))
    (bot : Settings) : Settings × SearchResponse :=
  (bot, api_search query fetch)

/-- The debug-markets endpoint as a transformer of the shared settings
state: it reads both thresholds but assigns neither. -/
def api_debug_markets_handler (fetch : Except String (List Market))
    (filterFn : List Market → List Market) (bot : Settings) :
    Settings × DebugMarketsResponse :=
  (bot, api_debug_markets fetch filterFn bot)

/-- The matching rule exactly as claim C3 words it: the lower-cased query
(not stripped of surrounding whitespace) must occur in the lower-cased title
or in the lower-cased ticker (ticker_name when present, else ticker, else
the empty string). -/
def claimSearchMatch (query : String) (market : Market) : Bool :=
  subOf (lowerS query) (lowerS (mget market "title" "")) ||
  subOf (lowerS query) (lowerS (mget market "ticker_name" (mget market "ticker" "")))

/-- The matching rule as amended: the lower-cased AND whitespace-stripped
query must occur in the lower-cased title or lower-cased ticker. -/
def claimSearchMatchStripped (query : String) (market : Market) : Bool :=
  subOf (stripS (lowerS query)) (lowerS (mget market "title" "")) ||
  subOf (stripS (lowerS query)) (lowerS (mget market "ticker_name" (mget market "ticker" "")))

/-- A concrete market record used in witnesses and counterexamples. -/
def presMarket : Market :=
  [("title", "Presidential Election"), ("ticker", "PRES24")]

/-- A second concrete market record that matches no query used below. -/
def weatherMarket : Market :=
  [("title", "Weather NYC"), ("ticker", "WNYC")]

/-- A concrete settings trace with no concurrent update. -/
def traceA : SettingsTrace :=
  ⟨⟨10000, 1/10⟩, ⟨10000, 1/10⟩⟩

/-- Helper: dropping while a predicate holds of every element empties the
list. -/
theorem dropWhile_eq_nil_of_all (p : Char → Bool) (l : List Char)
    (h : ∀ c ∈ l, p c = true) : l.dropWhile p = [] := by
  induction l with
  | nil => rfl
  | cons a t ih =>
    simp only [List.dropWhile_cons, h a (List.mem_cons_self a t), if_true]
    exact ih fun c hc => h c (List.mem_cons_of_mem a hc)

/-- C1 counterexample: when `get_markets` raises, `api_scan` does not return
a structured error payload; the exception propagates out of the handler
(there is no try/except in `api_scan`). -/
theorem c1_scan_error_propagates_cex :
    api_scan (Except.error "connection refused") (fun ms => ms)
      (Except.ok ([], [], 0)) traceA = Except.error "connection refused" := rfl

/-- C1 (amended): `api_scan` has no exception handler, so a raising
`get_markets` propagates as a transport-level fault; a `get_markets` that
returns no markets instead yields a normal (non-error) payload whose debug
counts are zero and whose sample field list is empty. -/
theorem c1_scan_fetch_failure_behavior (e : String)
    (filterFn : List Market → List Market)
    (engine : Except String (List Opp × List Opp × Int))
    (arb tr : List Opp) (ex : Int) (trace : SettingsTrace) :
    api_scan (Except.error e) filterFn engine trace = Except.error e ∧
    api_scan (Except.ok []) filterFn (Except.ok (arb, tr, ex)) trace =
      Except.ok (scan_response [] filterFn arb tr ex trace) ∧
    (scan_response [] filterFn arb tr ex trace).debug.total_markets_fetched = 0 ∧
    (scan_response [] filterFn arb tr ex trace).debug.markets_after_liquidity_filter = 0 ∧
    (scan_response [] filterFn arb tr ex trace).debug.sample_market_fields = [] :=
  ⟨rfl, rfl, rfl, rfl, rfl⟩

/-- C2 counterexample: with a concurrent settings update between the start
of the scan and response assembly (start value 10000, assembly value 5000),
the reported `debug.min_liquidity` is 5000, not the step-1 snapshot
10000 — the handler re-reads the shared settings when building the
response. -/
theorem c2_snapshot_cex :
    (scan_response [] (fun ms => ms) [] [] 0
        ⟨⟨10000, 1/10⟩, ⟨5000, 1/5⟩⟩).debug.min_liquidity = 5000 ∧
    (5000 : Int) ≠ 10000 := ⟨rfl, by decide⟩

/-- C2 (amended): `debug.min_liquidity` and `debug.min_profit_per_day`
equal the shared settings values at response-assembly time; the handler
takes no step-1 snapshot, so a concurrent update before assembly is
reflected in the debug payload. -/
theorem c2_debug_from_assembly (markets : List Market)
    (filterFn : List Market → List Market) (arb tr : List Opp) (ex : Int)
    (trace : SettingsTrace) :
    (scan_response markets filterFn arb tr ex trace).debug.min_liquidity =
      trace.atAssembly.min_liquidity ∧
    (scan_response markets filterFn arb tr ex trace).debug.min_profit_per_day =
      trace.atAssembly.min_profit_per_day :=
  ⟨rfl, rfl⟩

/-- C3 counterexample: for the query consisting of `pres` followed by a
space, the lower-cased query is not a substring of the market's lower-cased
title or ticker, so the claim's matching rule excludes the market; the code
strips the query first and returns the market anyway. -/
theorem c3_unstripped_query_cex :
    api_search "pres " (Except.ok [presMarket]) =
      SearchResponse.success [presMarket] 1 "pres " ∧
    claimSearchMatch "pres " presMarket = false ∧
    [presMarket].filter (claimSearchMatch "pres ") = [] := by
  refine ⟨?_, ?_, ?_⟩ <;> decide

/-- C3 (amended): for a non-blank query and a non-empty window, the search
returns exactly the order-preserving subsequence of the window matching the
lower-cased AND whitespace-stripped query (substring of lower-cased title or
of lower-cased ticker with the ticker_name/ticker/empty fallback), with no
deduplication and with count equal to the number of returned markets. -/
theorem c3_search_stripped_filter (query : String) (ms : List Market)
    (hq : (query.isEmpty || (stripS query).isEmpty) = false)
    (hms : ms.isEmpty = false) :
    api_search query (Except.ok ms) =
      SearchResponse.success (ms.filter (claimSearchMatchStripped query))
        (ms.filter (claimSearchMatchStripped query)).length query ∧
    List.Sublist (ms.filter (claimSearchMatchStripped query)) ms := by
  have hfun : matchesQuery (stripS (lowerS query)) = claimSearchMatchStripped query := by
    funext m
    rfl
  refine ⟨?_, List.filter_sublist ms⟩
  simp [api_search, hq, hms, hfun]

/-- C3 witness: the amended theorem applied to the spec's own scenario, the
query PRES over a window containing the presidential market and the weather
market. -/
theorem c3_search_stripped_filter_witness :
    api_search "PRES" (Except.ok [presMarket, weatherMarket]) =
      SearchResponse.success
        (([presMarket, weatherMarket] : List Market).filter
          (claimSearchMatchStripped "PRES"))
        (([presMarket, weatherMarket] : List Market).filter
          (claimSearchMatchStripped "PRES")).length "PRES" ∧
    List.Sublist
      (([presMarket, weatherMarket] : List Market).filter
        (claimSearchMatchStripped "PRES"))
      [presMarket, weatherMarket] :=
  c3_search_stripped_filter "PRES" [presMarket, weatherMarket]
    (by decide) (by decide)

/-- C4: the settings update changes exactly the fields present in the
payload (an absent field keeps its prior value, the all-absent payload is
the identity), and the response is the resulting full settings record with
both fields. -/
theorem c4_settings_partial_update (payload : SettingsPayload) (bot : Settings) :
    (api_settings payload bot).1.min_liquidity =
      payload.min_liquidity.getD bot.min_liquidity ∧
    (api_settings payload bot).1.min_profit_per_day =
      payload.min_profit_per_day.getD bot.min_profit_per_day ∧
    api_settings ⟨none, none⟩ bot = (bot, bot) ∧
    (api_settings payload bot).2 = (api_settings payload bot).1 := by
  obtain ⟨ml, mp⟩ := payload
  cases ml <;> cases mp <;> exact ⟨rfl, rfl, rfl, rfl⟩

/-- C5 counterexample: the scan response dictionary has no key named
`executed_count`; the executed-order count is serialized under the key
`executed`. -/
theorem c5_executed_field_name_cex :
    ((scan_response [] (fun ms => ms) [] [] 0 traceA).jsonKeys.contains
      "executed_count") = false ∧
    ((scan_response [] (fun ms => ms) [] [] 0 traceA).jsonKeys.contains
      "executed") = true := by
  refine ⟨?_, ?_⟩ <;> decide

/-- C5 (amended): every scan response contains exactly the fields
arbitrage_opportunities, trade_opportunities, executed and debug, where
executed holds the integer executed-order count returned by
`scan_all_opportunities` and the two opportunity lists are the engine's
lists. -/
theorem c5_scan_result_shape (markets : List Market)
    (filterFn : List Market → List Market) (arb tr : List Opp) (ex : Int)
    (trace : SettingsTrace) :
    api_scan (Except.ok markets) filterFn (Except.ok (arb, tr, ex)) trace =
      Except.ok (scan_response markets filterFn arb tr ex trace) ∧
    (scan_response markets filterFn arb tr ex trace).jsonKeys =
      ["arbitrage_opportunities", "trade_opportunities", "executed", "debug"] ∧
    (scan_response markets filterFn arb tr ex trace).executed = ex ∧
    (scan_response markets filterFn arb tr ex trace).arbitrage_opportunities = arb ∧
    (scan_response markets filterFn arb tr ex trace).trade_opportunities = tr :=
  ⟨rfl, rfl, rfl, rfl, rfl⟩

/-- C6 counterexample: a successful fetch that yields no markets makes the
search return the dictionary with keys markets and count only — neither the
claimed success shape (no query key) nor the claimed error shape (no error
key). -/
theorem c6_empty_fetch_shape_cex :
    api_search "xyz" (Except.ok []) = SearchResponse.noMarkets ∧
    (SearchResponse.jsonKeys (api_search "xyz" (Except.ok []))).contains
      "query" = false ∧
    (SearchResponse.jsonKeys (api_search "xyz" (Except.ok []))).contains
      "error" = false := by
  refine ⟨?_, ?_, ?_⟩ <;> decide

/-- C6 (amended): for a non-blank query the search never raises past its
boundary: a raising fetch yields the error shape with an empty markets
list, a fetch with no markets yields the markets/count shape (without a
query key), and a non-empty fetch yields the markets/count/query shape. -/
theorem c6_search_boundary (query e : String) (ms : List Market)
    (hq : (query.isEmpty || (stripS query).isEmpty) = false) :
    api_search query (Except.error e) = SearchResponse.failure e ∧
    SearchResponse.marketsField (api_search query (Except.error e)) = [] ∧
    api_search query (Except.ok []) = SearchResponse.noMarkets ∧
    (ms.isEmpty = false →
      SearchResponse.jsonKeys (api_search query (Except.ok ms)) =
        ["markets", "count", "query"]) := by
  refine ⟨?_, ?_, ?_, ?_⟩
  · simp [api_search, hq]
  · simp [api_search, hq, SearchResponse.marketsField]
  · simp [api_search, hq]
  · intro hms
    simp [api_search, hq, hms, SearchResponse.jsonKeys]

/-- C6 witness: the amended boundary theorem at the query abc, the fetch
error boom, and a one-market window. -/
theorem c6_search_boundary_witness :
    api_search "abc" (Except.error "boom") = SearchResponse.failure "boom" ∧
    SearchResponse.marketsField (api_search "abc" (Except.error "boom")) = [] ∧
    api_search "abc" (Except.ok []) = SearchResponse.noMarkets ∧
    (([presMarket] : List Market).isEmpty = false →
      SearchResponse.jsonKeys (api_search "abc" (Except.ok [presMarket])) =
        ["markets", "count", "query"]) :=
  c6_search_boundary "abc" "boom" [presMarket] (by decide)

/-- C7: a query that is empty or consists only of whitespace makes the
search return the structured error payload with an empty markets list out of
its validation guard, never a market list. -/
theorem c7_blank_query_rejected (query : String)
    (fetch : Except String (List Market))
    (hq : ∀ c ∈ query.data, c.isWhitespace = true) :
    api_search query fetch = SearchResponse.failure "Query parameter is required" ∧
    SearchResponse.marketsField (api_search query fetch) = [] := by
  have hstrip : stripS query = "" := by
    unfold stripS
    rw [dropWhile_eq_nil_of_all Char.isWhitespace query.data hq]
    rfl
  have hempty : ("" : String).isEmpty = true := rfl
  have hguard : (query.isEmpty || (stripS query).isEmpty) = true := by
    rw [hstrip, hempty, Bool.or_true]
  refine ⟨?_, ?_⟩ <;> simp [api_search, hguard, SearchResponse.marketsField]

/-- C7 witness: the validation theorem at a three-space query over a
one-market window. -/
theorem c7_blank_query_rejected_witness :
    api_search "   " (Except.ok [presMarket]) =
      SearchResponse.failure "Query parameter is required" ∧
    SearchResponse.marketsField (api_search "   " (Except.ok [presMarket])) = [] :=
  c7_blank_query_rejected "   " (Except.ok [presMarket]) (by decide)

/-- C8: provided the liquidity-filter collaborator maps the empty list to
the empty list, the scan debug payload reports the fetched count as the
length of the fetched window, the filtered count as the length of the
filter's output, and the sample field list as the key list of the first
fetched market (empty when the window is empty). -/
theorem c8_debug_counts (markets : List Market)
    (filterFn : List Market → List Market) (arb tr : List Opp) (ex : Int)
    (trace : SettingsTrace) (hfe : filterFn [] = []) :
    (scan_response markets filterFn arb tr ex trace).debug.total_markets_fetched =
      markets.length ∧
    (scan_response markets filterFn arb tr ex trace).debug.markets_after_liquidity_filter =
      (filterFn markets).length ∧
    (scan_response markets filterFn arb tr ex trace).debug.sample_market_fields =
      (markets.head?.map mkeys).getD [] := by
  cases markets with
  | nil => exact ⟨rfl, by rw [hfe]; rfl, rfl⟩
  | cons m rest => exact ⟨rfl, rfl, rfl⟩

/-- C8 witness: the debug-count theorem at a one-market window and the
identity filter. -/
theorem c8_debug_counts_witness :
    (scan_response [presMarket] (fun ms => ms) [] [] 0 traceA).debug.total_markets_fetched =
      ([presMarket] : List Market).length ∧
    (scan_response [presMarket] (fun ms => ms) [] [] 0 traceA).debug.markets_after_liquidity_filter =
      ((fun (ms : List Market) => ms) [presMarket]).length ∧
    (scan_response [presMarket] (fun ms => ms) [] [] 0 traceA).debug.sample_market_fields =
      ((([presMarket] : List Market).head?.map mkeys).getD []) :=
  c8_debug_counts [presMarket] (fun ms => ms) [] [] 0 traceA rfl

/-- C9: provided the liquidity-filter collaborator returns a sublist of its
input, every scan debug payload satisfies the invariant that the filtered
count is at most the fetched count. -/
theorem c9_filter_le_total (markets : List Market)
    (filterFn : List Market → List Market) (arb tr : List Opp) (ex : Int)
    (trace : SettingsTrace) (hsub : ∀ l, List.Sublist (filterFn l) l) :
    (scan_response markets filterFn arb tr ex trace).debug.markets_after_liquidity_filter ≤
      (scan_response markets filterFn arb tr ex trace).debug.total_markets_fetched := by
  cases markets with
  | nil => exact Nat.le_refl 0
  | cons m rest =>
    simpa [scan_response] using (hsub (m :: rest)).length_le

/-- C9 witness: the invariant theorem at a one-market window and the
identity filter, whose output is a sublist of its input by reflexivity. -/
theorem c9_filter_le_total_witness :
    (scan_response [presMarket] (fun ms => ms) [] [] 0 traceA).debug.markets_after_liquidity_filter ≤
      (scan_response [presMarket] (fun ms => ms) [] [] 0 traceA).debug.total_markets_fetched :=
  c9_filter_le_total [presMarket] (fun ms => ms) [] [] 0 traceA
    (fun l => List.Sublist.refl l)

/-- C10: the scan, search and debug-markets handlers leave the shared
settings state unchanged; only the settings-update handler writes the two
threshold fields. -/
theorem c10_read_handlers_preserve_settings
    (fetch1 fetch2 fetch3 : Except String (List Market))
    (filterFn : List Market → List Market)
    (engine : Except String (List Opp × List Opp × Int))
    (query : String) (bot : Settings) :
    (api_scan_handler fetch1 filterFn engine bot).1 = bot ∧
    (api_search_handler query fetch2 bot).1 = bot ∧
    (api_debug_markets_handler fetch3 filterFn bot).1 = bot :=
  ⟨rfl, rfl, rfl⟩
